import Mathlib

/-!
Shallow embedding of the payment-approval workflow core
(`core/payments/models.py`, `core/payments/views.py`,
`core/payments/forms.py`, `core/payments/admin.py`):
the status enumeration, role resolution, the staff status-transition
engine, customer create/edit, receipt deduplication, and counterparty
deletion protection, together with theorems settling the claims of the spec.
-/

namespace PaymentApp

/-- The eight payment statuses (`PaymentRecord.STATUS_*`). -/
inductive Status
  | pending
  | commercial_review
  | finance_review
  | approved
  | final_approved
  | rejected
  | incomplete
  | returned_commercial
deriving DecidableEq, Repr

/-- Role strings a caller can resolve to: the empty string (anonymous),
`customer`, `commercial`, `finance`, `staff` (the values of
`UserProfile.ROLE_CHOICES` plus the empty string for unauthenticated users). -/
inductive Role
  | noRole
  | customer
  | commercial
  | finance
  | staff
deriving DecidableEq, Repr

/-- The stored attributes of a Django `User` (plus its `UserProfile.role`
when a profile row exists) that the views consult. -/
structure User where
  id : Nat
  is_authenticated : Bool
  is_superuser : Bool
  is_staff : Bool
  profile : Option Role
deriving DecidableEq, Repr

/-- Model of `PaymentRecord`: the fields the workflow core reads or writes. -/
structure Payment where
  status : Status
  locked_by_finance : Bool
  last_staff_note : String
  counterparty : Option Nat
  user_id : Option Nat
deriving DecidableEq, Repr

/-- Action kinds of `PaymentActivityLog`. -/
inductive LogAction
  | created
  | edited
  | status_changed
  | viewed
deriving DecidableEq, Repr

/-- One `PaymentActivityLog` row; `from_status` and `to_status` are stored
as the empty string when absent, modelled as `none`. -/
structure LogEntry where
  actor : Option Nat
  action : LogAction
  from_status : Option Status
  to_status : Option Status
  note : String
deriving DecidableEq, Repr

/-- Constant `STAFF_ROLES` in `views.py`: staff, finance, commercial. -/
def STAFF_ROLES : List Role := [Role.staff, Role.finance, Role.commercial]

/-- Constant `STATUS_CHOICES` of `PaymentRecord` (values in declaration order). -/
def STATUS_CHOICES : List Status :=
  [Status.pending, Status.commercial_review, Status.finance_review,
   Status.approved, Status.final_approved, Status.rejected,
   Status.incomplete, Status.returned_commercial]

/-- Function user_role models `_user_role` in `views.py`: no role when
unauthenticated; staff when superuser; otherwise the role of the profile
when a profile exists; otherwise staff when `is_staff` else customer. -/
def user_role (u : User) : Role :=
  if u.is_authenticated = false then Role.noRole
  else if u.is_superuser = true then Role.staff
  else
    match u.profile with
    | some r => r
    | none => if u.is_staff = true then Role.staff else Role.customer

/-- Function is_staff_user models `_is_staff_user` in `views.py`. -/
def is_staff_user (u : User) : Bool :=
  if u.is_authenticated = false then false
  else if u.is_staff = true ∨ u.is_superuser = true then true
  else
    match u.profile with
    | some r => decide (r ∈ STAFF_ROLES)
    | none => false

/-- Function `_staff_status_choices_for_role` in `views.py` (values only;
the Persian labels are presentation data). -/
def staff_status_choices_for_role (role : Role) : List Status :=
  if role = Role.commercial then
    [Status.commercial_review, Status.incomplete, Status.rejected]
  else if role = Role.finance then
    [Status.finance_review, Status.final_approved, Status.incomplete,
     Status.rejected, Status.returned_commercial]
  else STATUS_CHOICES

/-- Function `_can_staff_act_on_payment` in `views.py`. -/
def can_staff_act_on_payment (role : Role) (payment : Payment)
    (is_system_admin : Bool) : Bool :=
  if is_system_admin = true then true
  else if payment.locked_by_finance = true then false
  else if role = Role.commercial then
    decide (payment.status = Status.pending ∨
            payment.status = Status.returned_commercial)
  else if role = Role.finance then true
  else true

/-- Function `_log_activity` in `views.py`: builds the appended log row
(`actor` stored as NULL when the actor is missing or unauthenticated). -/
def log_activity (actor : User) (action : LogAction)
    (from_status to_status : Option Status) (note : String) : LogEntry :=
  { actor := if actor.is_authenticated = true then some actor.id else none
    action := action
    from_status := from_status
    to_status := to_status
    note := note }

/-- The fields of a bound `StaffStatusUpdateForm`; `valid` is the outcome
of `form.is_valid()` (choice-field and counterparty-lookup validation). -/
structure StatusForm where
  valid : Bool
  status : Status
  note : String
  counterparty : Option Nat
deriving DecidableEq, Repr

/-- The distinct failure steps of `staff_update_status`, in check order. -/
inductive UpdateError
  | notStaff
  | cannotAct
  | invalidForm
  | roleNotAllowed
  | noteRequired
deriving DecidableEq, Repr

/-- The user-facing message `staff_update_status` emits for each failed
step (`messages.error` calls in `views.py`). -/
def update_error_message : UpdateError → String
  | UpdateError.notStaff => "شما دسترسی بررسی اسناد را ندارید."
  | UpdateError.cannotAct => "در وضعیت فعلی، امکان تغییر این سند برای شما وجود ندارد."
  | UpdateError.invalidForm => "اطلاعات ارسالی معتبر نیست."
  | UpdateError.roleNotAllowed => "این تغییر وضعیت برای نقش شما مجاز نیست."
  | UpdateError.noteRequired => "برای وضعیت «رد شده» یا «ناقص»، ثبت توضیح الزامی است."

/-- Model of the Python string strip method with no argument: remove
leading and trailing whitespace characters. -/
def strip (s : String) : String :=
  String.mk
    (((s.data.dropWhile Char.isWhitespace).reverse.dropWhile
        Char.isWhitespace).reverse)

/-- The mandatory-note test of `staff_update_status`: the target is
`rejected` or `incomplete` and the stripped note is empty. -/
def mandatory_note_missing (target_status : Status) (note : String) : Bool :=
  decide ((target_status = Status.rejected ∨ target_status = Status.incomplete)
          ∧ note = "")

deriving instance DecidableEq for Except

/-- The lock side effect of `staff_update_status`: the override
(superuser) caller clears `locked_by_finance` on any action; a `finance`
caller reaching `final_approved`, `rejected` or `incomplete` sets it. -/
def lock_update (u : User) (staff_role : Role) (target_status : Status)
    (p : Payment) : Payment :=
  if u.is_superuser = true then { p with locked_by_finance := false }
  else if staff_role = Role.finance ∧
      (target_status = Status.final_approved ∨
       target_status = Status.rejected ∨
       target_status = Status.incomplete) then
    { p with locked_by_finance := true }
  else p

/-- The counterparty side effect of `staff_update_status`: a selected
counterparty is applied only for the `commercial` or `staff` role. -/
def counterparty_update (staff_role : Role) (selected : Option Nat)
    (p : Payment) : Payment :=
  match selected with
  | some c =>
    if staff_role = Role.commercial ∨ staff_role = Role.staff then
      { p with counterparty := some c }
    else p
  | none => p

/-- The success branch of `staff_update_status`: write the target status
and the stripped note, apply the lock and counterparty side effects, and
build the single `status_changed` log entry recording the prior status. -/
def staff_update_success (u : User) (payment : Payment) (form : StatusForm) :
    Payment × LogEntry :=
  let p3 :=
    counterparty_update (user_role u) form.counterparty
      (lock_update u (user_role u) form.status
        { payment with status := form.status,
                       last_staff_note := strip form.note })
  (p3,
   log_activity u LogAction.status_changed (some payment.status)
     (some p3.status) p3.last_staff_note)

/-- View `staff_update_status` in `views.py`: the full validation sequence,
short-circuiting in source order, and on success the updated record
together with the single appended log entry. -/
def staff_update_status (u : User) (payment : Payment) (form : StatusForm) :
    Except UpdateError (Payment × LogEntry) :=
  if is_staff_user u = false then Except.error UpdateError.notStaff
  else if can_staff_act_on_payment (user_role u) payment u.is_superuser
      = false then
    Except.error UpdateError.cannotAct
  else if form.valid = false then Except.error UpdateError.invalidForm
  else if u.is_superuser = false ∧
      form.status ∉ staff_status_choices_for_role (user_role u) then
    Except.error UpdateError.roleNotAllowed
  else if mandatory_note_missing form.status (strip form.note) = true then
    Except.error UpdateError.noteRequired
  else Except.ok (staff_update_success u payment form)

/-- A payment record together with its activity-log rows (append-only). -/
structure DB where
  payment : Payment
  logs : List LogEntry
deriving DecidableEq, Repr

/-- Effect of `staff_update_status` on the stored state: on success the new
record is persisted and exactly the one entry is appended; on failure the
state is returned untouched together with the error of the failed step. -/
def staff_update_db (u : User) (form : StatusForm) (db : DB) :
    DB × Option UpdateError :=
  match staff_update_status u db.payment form with
  | Except.ok pe =>
    ({ payment := pe.1, logs := db.logs ++ [pe.2] }, none)
  | Except.error e => (db, some e)

example :
    staff_update_status
      { id := 1, is_authenticated := true, is_superuser := false,
        is_staff := false, profile := some Role.finance }
      { status := Status.commercial_review, locked_by_finance := false,
        last_staff_note := "", counterparty := none, user_id := some 9 }
      { valid := true, status := Status.final_approved, note := " ok ",
        counterparty := none } =
    Except.ok
      ({ status := Status.final_approved, locked_by_finance := true,
         last_staff_note := "ok", counterparty := none, user_id := some 9 },
       { actor := some 1, action := LogAction.status_changed,
         from_status := some Status.commercial_review,
         to_status := some Status.final_approved, note := "ok" }) := by
  decide

/-- A bound `PaymentRecordForm`: `valid` is the outcome of
`form.is_valid()`; `submitted_status` records any status value present in
the POST payload (the form declares no status field, so it is never read). -/
structure PaymentForm where
  valid : Bool
  submitted_status : Status
deriving DecidableEq, Repr

/-- Failure outcomes of the customer create view. -/
inductive CreateError
  | staffForbidden
  | invalidForm
deriving DecidableEq, Repr

/-- View `create_payment` in `views.py` (POST path): staff users are refused;
on a valid form a fresh record is saved with `status` forced to `pending`
(model defaults: unlocked, empty note, no counterparty) and one `created`
log entry is appended. -/
def create_payment (u : User) (form : PaymentForm) :
    Except CreateError (Payment × LogEntry) :=
  if is_staff_user u = true then Except.error CreateError.staffForbidden
  else if form.valid = false then Except.error CreateError.invalidForm
  else
    let payment : Payment :=
      { status := Status.pending, locked_by_finance := false,
        last_staff_note := "", counterparty := none, user_id := some u.id }
    Except.ok
      (payment,
       log_activity u LogAction.created none (some payment.status) "")

/-- Failure outcomes of the customer edit view, in check order. -/
inductive EditError
  | staffForbidden
  | notOwner
  | notIncomplete
  | invalidForm
deriving DecidableEq, Repr

/-- View `edit_payment` in `views.py`: staff users refused, then ownership,
then the `incomplete`-status gate; on a valid form the record is saved
with `status` forced back to `pending` and `locked_by_finance` cleared,
and one `edited` log entry is appended. -/
def edit_payment (u : User) (payment : Payment) (form : PaymentForm) :
    Except EditError (Payment × LogEntry) :=
  if is_staff_user u = true then Except.error EditError.staffForbidden
  else if payment.user_id ≠ some u.id then Except.error EditError.notOwner
  else if payment.status ≠ Status.incomplete then
    Except.error EditError.notIncomplete
  else if form.valid = false then Except.error EditError.invalidForm
  else
    let from_status := payment.status
    let p : Payment :=
      { payment with user_id := some u.id, status := Status.pending,
                     locked_by_finance := false }
    Except.ok
      (p,
       log_activity u LogAction.edited (some from_status) (some p.status) "")

/-- Constant `MAX_UPLOAD_SIZE` of `PaymentRecordForm` (1 MiB). -/
def MAX_UPLOAD_SIZE : Nat := 1 * 1024 * 1024

/-- Constant `ALLOWED_EXTENSIONS` of `PaymentRecordForm`. -/
def ALLOWED_EXTENSIONS : List String :=
  [".jpg", ".jpeg", ".png", ".gif", ".webp", ".bmp", ".tif", ".tiff", ".pdf"]

/-- One uploaded file as `clean_receipt_images` sees it: the lowercased
extension of its name, its byte size, and its byte content. -/
structure UploadedFile where
  ext : String
  size : Nat
  bytes : List Nat
deriving DecidableEq, Repr

/-- The distinct `ValidationError`s `clean_receipt_images` can raise. -/
inductive CleanError
  | noFiles
  | badExtension
  | tooLarge
  | duplicate
deriving DecidableEq, Repr

/-- The per-file loop of `PaymentRecordForm.clean_receipt_images`:
extension allow-list, size ceiling, content digest, rejection when the
digest repeats within the batch (`seen`) or matches a stored digest of the
same payment (`existing_hashes`); on success the `(file, digest)` payload
in input order. The digest function is a parameter standing for SHA-256. -/
def clean_receipt_images_go (hash : List Nat → Nat)
    (existing_hashes : List Nat) :
    List UploadedFile → List Nat →
    Except CleanError (List (UploadedFile × Nat))
  | [], _ => Except.ok []
  | f :: rest, seen =>
    if f.ext ∉ ALLOWED_EXTENSIONS then Except.error CleanError.badExtension
    else if MAX_UPLOAD_SIZE < f.size then Except.error CleanError.tooLarge
    else if hash f.bytes ∈ seen ∨ hash f.bytes ∈ existing_hashes then
      Except.error CleanError.duplicate
    else
      match clean_receipt_images_go hash existing_hashes rest
              (seen ++ [hash f.bytes]) with
      | Except.ok payload => Except.ok ((f, hash f.bytes) :: payload)
      | Except.error e => Except.error e

/-- Method `clean_receipt_images` of `PaymentRecordForm`: at least one file is
required unless the record already has stored receipts (`existing_hashes`
holds the digests already stored against the payment, empty on create). -/
def clean_receipt_images (hash : List Nat → Nat)
    (existing_hashes : List Nat) (files : List UploadedFile) :
    Except CleanError (List (UploadedFile × Nat)) :=
  if files = [] ∧ existing_hashes = [] then Except.error CleanError.noFiles
  else clean_receipt_images_go hash existing_hashes files []

/-- Function `_save_receipts` after form validation: on success the whole
batch of digests is bulk-appended to the stored receipt digests; on any
validation failure nothing is persisted. -/
def save_receipts_result (hash : List Nat → Nat)
    (existing_hashes : List Nat) (files : List UploadedFile) :
    List Nat × Option CleanError :=
  match clean_receipt_images hash existing_hashes files with
  | Except.ok payload =>
    (existing_hashes ++ payload.map (fun pr => pr.2), none)
  | Except.error e => (existing_hashes, some e)

/-- Reference entity `Counterparty`. -/
structure Counterparty where
  name : String
  description : String
deriving DecidableEq, Repr

/-- Method delete of `Counterparty` in `models.py`: unconditionally raises
`ValidationError`. -/
def Counterparty.del (_c : Counterparty) : Except String Unit :=
  Except.error "Counterparty records are permanent and cannot be deleted."

/-- A deletion attempt against the stored counterparty list by any caller:
the model-layer `delete` decides; since it always raises, the store is
returned unchanged with the error. The caller is ignored by the code. -/
def delete_counterparty (_u : User) (store : List Counterparty)
    (c : Counterparty) : List Counterparty × Option String :=
  match c.del with
  | Except.ok _ => (store.erase c, none)
  | Except.error msg => (store, some msg)

/-- Method `has_delete_permission` of `CounterpartyAdmin`: `False` for
every request and object. -/
def counterparty_admin_has_delete_permission (_u : User)
    (_obj : Option Counterparty) : Bool :=
  false

/-- The role-classification precedence exactly as the claim states it
(transcribed from the words of the spec, not from the code): override flag
first, then the staff flag, then the stored profile role, defaulting to
`customer` when no profile exists. -/
def user_role_claimed_precedence (u : User) : Role :=
  if u.is_authenticated = false then Role.noRole
  else if u.is_superuser = true then Role.staff
  else if u.is_staff = true then Role.staff
  else
    match u.profile with
    | some r => r
    | none => Role.customer

/-- The amended precedence (transcribed from the amended claim):
override flag first, then the stored profile role whenever a profile
exists, and the staff flag only as the no-profile fallback, defaulting to
`customer`. -/
def user_role_amended_precedence (u : User) : Role :=
  if u.is_authenticated = false then Role.noRole
  else if u.is_superuser = true then Role.staff
  else
    match u.profile with
    | some r => r
    | none => if u.is_staff = true then Role.staff else Role.customer

/-! ### Helper lemmas -/

lemma counterparty_update_status (r : Role) (cp : Option Nat) (p : Payment) :
    (counterparty_update r cp p).status = p.status := by
  rcases cp with _ | c
  · rfl
  · simp only [counterparty_update]
    split <;> rfl

lemma counterparty_update_locked (r : Role) (cp : Option Nat) (p : Payment) :
    (counterparty_update r cp p).locked_by_finance = p.locked_by_finance := by
  rcases cp with _ | c
  · rfl
  · simp only [counterparty_update]
    split <;> rfl

lemma counterparty_update_note (r : Role) (cp : Option Nat) (p : Payment) :
    (counterparty_update r cp p).last_staff_note = p.last_staff_note := by
  rcases cp with _ | c
  · rfl
  · simp only [counterparty_update]
    split <;> rfl

lemma counterparty_update_user_id (r : Role) (cp : Option Nat) (p : Payment) :
    (counterparty_update r cp p).user_id = p.user_id := by
  rcases cp with _ | c
  · rfl
  · simp only [counterparty_update]
    split <;> rfl

lemma lock_update_status (u : User) (r : Role) (t : Status) (p : Payment) :
    (lock_update u r t p).status = p.status := by
  unfold lock_update
  split_ifs <;> rfl

lemma lock_update_note (u : User) (r : Role) (t : Status) (p : Payment) :
    (lock_update u r t p).last_staff_note = p.last_staff_note := by
  unfold lock_update
  split_ifs <;> rfl

lemma lock_update_user_id (u : User) (r : Role) (t : Status) (p : Payment) :
    (lock_update u r t p).user_id = p.user_id := by
  unfold lock_update
  split_ifs <;> rfl

lemma lock_update_locked (u : User) (r : Role) (t : Status) (p : Payment) :
    (lock_update u r t p).locked_by_finance =
      if u.is_superuser = true then false
      else if r = Role.finance ∧
          (t = Status.final_approved ∨ t = Status.rejected ∨
           t = Status.incomplete) then true
      else p.locked_by_finance := by
  unfold lock_update
  split_ifs <;> rfl

lemma staff_update_success_status (u : User) (p : Payment) (form : StatusForm) :
    (staff_update_success u p form).1.status = form.status := by
  simp [staff_update_success, counterparty_update_status, lock_update_status]

lemma staff_update_success_note (u : User) (p : Payment) (form : StatusForm) :
    (staff_update_success u p form).1.last_staff_note = strip form.note := by
  simp [staff_update_success, counterparty_update_note, lock_update_note]

lemma staff_update_success_user_id (u : User) (p : Payment) (form : StatusForm) :
    (staff_update_success u p form).1.user_id = p.user_id := by
  simp [staff_update_success, counterparty_update_user_id, lock_update_user_id]

lemma staff_update_success_locked (u : User) (p : Payment) (form : StatusForm) :
    (staff_update_success u p form).1.locked_by_finance =
      if u.is_superuser = true then false
      else if user_role u = Role.finance ∧
          (form.status = Status.final_approved ∨
           form.status = Status.rejected ∨
           form.status = Status.incomplete) then true
      else p.locked_by_finance := by
  simp [staff_update_success, counterparty_update_locked, lock_update_locked]

lemma staff_update_success_entry (u : User) (p : Payment) (form : StatusForm) :
    (staff_update_success u p form).2 =
      { actor := if u.is_authenticated = true then some u.id else none
        action := LogAction.status_changed
        from_status := some p.status
        to_status := some form.status
        note := strip form.note } := by
  simp [staff_update_success, log_activity, counterparty_update_status,
        lock_update_status, counterparty_update_note, lock_update_note]

/-- Eliminating a successful `staff_update_status` call: every guard
passed and the result is the output of the success branch. -/
lemma staff_update_status_ok_elim {u : User} {p : Payment} {form : StatusForm}
    {pe : Payment × LogEntry}
    (h : staff_update_status u p form = Except.ok pe) :
    is_staff_user u = true ∧
    can_staff_act_on_payment (user_role u) p u.is_superuser = true ∧
    form.valid = true ∧
    (u.is_superuser = false →
      form.status ∈ staff_status_choices_for_role (user_role u)) ∧
    mandatory_note_missing form.status (strip form.note) = false ∧
    pe = staff_update_success u p form := by
  unfold staff_update_status at h
  split_ifs at h with h1 h2 h3 h4 h5
  try simp at h
  simp only [Bool.not_eq_false] at h1 h2 h3
  simp only [Bool.not_eq_true] at h5
  push_neg at h4
  refine ⟨h1, h2, h3, ?_, h5, h.symm⟩
  intro hsu
  exact h4 hsu

/-- A successful `staff_update_status` call with the guards discharged. -/
lemma staff_update_status_ok_intro {u : User} {p : Payment} {form : StatusForm}
    (h1 : is_staff_user u = true)
    (h2 : can_staff_act_on_payment (user_role u) p u.is_superuser = true)
    (h3 : form.valid = true)
    (h4 : u.is_superuser = false →
      form.status ∈ staff_status_choices_for_role (user_role u))
    (h5 : mandatory_note_missing form.status (strip form.note) = false) :
    staff_update_status u p form = Except.ok (staff_update_success u p form) := by
  unfold staff_update_status
  simp only [h1, h2, h3, h5]
  have h4' : ¬(u.is_superuser = false ∧
      form.status ∉ staff_status_choices_for_role (user_role u)) := by
    rintro ⟨hsu, hmem⟩
    exact hmem (h4 hsu)
  simp [h4']

lemma staff_update_db_of_error {u : User} {form : StatusForm} {db : DB}
    {e : UpdateError}
    (h : staff_update_status u db.payment form = Except.error e) :
    staff_update_db u form db = (db, some e) := by
  simp [staff_update_db, h]

lemma staff_update_db_of_ok {u : User} {form : StatusForm} {db : DB}
    {pe : Payment × LogEntry}
    (h : staff_update_status u db.payment form = Except.ok pe) :
    staff_update_db u form db =
      ({ payment := pe.1, logs := db.logs ++ [pe.2] }, none) := by
  simp [staff_update_db, h]

/-- Any failing `staff_update_db` call leaves the stored state untouched. -/
lemma staff_update_db_some_unchanged {u : User} {form : StatusForm}
    {db db' : DB} {e : UpdateError}
    (h : staff_update_db u form db = (db', some e)) : db' = db := by
  unfold staff_update_db at h
  split at h
  · simp at h
  · simp at h
    exact h.1.symm

/-- A successful `staff_update_db` call is a success of
`staff_update_status` with exactly one appended entry. -/
lemma staff_update_db_none_elim {u : User} {form : StatusForm} {db db' : DB}
    (h : staff_update_db u form db = (db', none)) :
    staff_update_status u db.payment form =
      Except.ok (staff_update_success u db.payment form) ∧
    db'.payment = (staff_update_success u db.payment form).1 ∧
    db'.logs = db.logs ++ [(staff_update_success u db.payment form).2] := by
  unfold staff_update_db at h
  split at h
  case _ pe heq =>
    obtain ⟨_, _, _, _, _, hpe⟩ := staff_update_status_ok_elim heq
    subst hpe
    simp at h
    subst h
    exact ⟨heq, rfl, rfl⟩
  case _ => simp at h

lemma user_role_commercial_elim {u : User}
    (h : user_role u = Role.commercial) :
    u.is_authenticated = true ∧ u.is_superuser = false ∧
    u.profile = some Role.commercial := by
  rcases u with ⟨i, auth, su, st, prof⟩
  cases auth <;> cases su <;> cases st <;> rcases prof with _ | r <;>
    simp_all [user_role]

lemma user_role_finance_elim {u : User}
    (h : user_role u = Role.finance) :
    u.is_authenticated = true ∧ u.is_superuser = false ∧
    u.profile = some Role.finance := by
  rcases u with ⟨i, auth, su, st, prof⟩
  cases auth <;> cases su <;> cases st <;> rcases prof with _ | r <;>
    simp_all [user_role]

lemma user_role_commercial_is_staff_user {u : User}
    (h : user_role u = Role.commercial) : is_staff_user u = true := by
  obtain ⟨hauth, hsu, hprof⟩ := user_role_commercial_elim h
  rcases u with ⟨i, auth, su, st, prof⟩
  cases st <;> simp_all [is_staff_user, STAFF_ROLES]

lemma user_role_staff_is_staff_user {u : User}
    (h : user_role u = Role.staff) : is_staff_user u = true := by
  rcases u with ⟨i, auth, su, st, prof⟩
  cases auth <;> cases su <;> cases st <;> rcases prof with _ | r <;>
    simp_all [user_role, is_staff_user, STAFF_ROLES]

lemma superuser_auth_is_staff_user {u : User}
    (h1 : u.is_authenticated = true) (h2 : u.is_superuser = true) :
    is_staff_user u = true := by
  rcases u with ⟨i, auth, su, st, prof⟩
  simp_all [is_staff_user]

lemma staff_update_status_error_notStaff {u : User} {p : Payment}
    {form : StatusForm} (h : is_staff_user u = false) :
    staff_update_status u p form = Except.error UpdateError.notStaff := by
  simp [staff_update_status, h]

lemma staff_update_status_error_cannotAct {u : User} {p : Payment}
    {form : StatusForm} (h1 : is_staff_user u = true)
    (h2 : can_staff_act_on_payment (user_role u) p u.is_superuser = false) :
    staff_update_status u p form = Except.error UpdateError.cannotAct := by
  simp [staff_update_status, h1, h2]

lemma can_act_locked_not_admin {r : Role} {p : Payment}
    (h : p.locked_by_finance = true) :
    can_staff_act_on_payment r p false = false := by
  simp [can_staff_act_on_payment, h]

lemma can_act_superuser (r : Role) (p : Payment) :
    can_staff_act_on_payment r p true = true := by
  simp [can_staff_act_on_payment]

lemma can_act_unlocked_noncommercial {r : Role} {p : Payment} (b : Bool)
    (hr : r ≠ Role.commercial) (hl : p.locked_by_finance = false) :
    can_staff_act_on_payment r p b = true := by
  unfold can_staff_act_on_payment
  split_ifs <;> simp_all

lemma can_act_commercial_elim {p : Payment} {b : Bool}
    (h : can_staff_act_on_payment Role.commercial p b = true)
    (hb : b = false) :
    p.status = Status.pending ∨ p.status = Status.returned_commercial := by
  subst hb
  unfold can_staff_act_on_payment at h
  split_ifs at h <;> simp_all

lemma can_act_commercial_false_after_finance {p : Payment}
    (h : p.status = Status.finance_review ∨ p.status = Status.approved ∨
         p.status = Status.final_approved) :
    can_staff_act_on_payment Role.commercial p false = false := by
  unfold can_staff_act_on_payment
  rcases h with h | h | h <;> simp [h]

lemma create_payment_ok_status {u : User} {form : PaymentForm}
    {pe : Payment × LogEntry}
    (h : create_payment u form = Except.ok pe) :
    pe.1.status = Status.pending := by
  unfold create_payment at h
  split_ifs at h
  simp at h
  rw [← h]

lemma edit_payment_ok_elim {u : User} {p : Payment} {form : PaymentForm}
    {pe : Payment × LogEntry}
    (h : edit_payment u p form = Except.ok pe) :
    is_staff_user u = false ∧ p.user_id = some u.id ∧
    p.status = Status.incomplete ∧ form.valid = true ∧
    pe.1.status = Status.pending ∧ pe.1.locked_by_finance = false := by
  unfold edit_payment at h
  split_ifs at h with h1 h2 h3 h4
  try simp at h
  simp only [Bool.not_eq_true] at h1
  simp only [Bool.not_eq_false] at h4
  push_neg at h2 h3
  refine ⟨h1, h2, h3, h4, ?_, ?_⟩ <;> rw [← h]

lemma edit_payment_ok_intro {u : User} {p : Payment} {form : PaymentForm}
    (h1 : is_staff_user u = false) (h2 : p.user_id = some u.id)
    (h3 : p.status = Status.incomplete) (h4 : form.valid = true) :
    ∃ pe, edit_payment u p form = Except.ok pe := by
  unfold edit_payment
  simp [h1, h2, h3, h4]

lemma clean_go_ok_spec {hash : List Nat → Nat} {existing : List Nat}
    {files : List UploadedFile} {seen : List Nat}
    {payload : List (UploadedFile × Nat)}
    (h : clean_receipt_images_go hash existing files seen =
         Except.ok payload) :
    payload.map (fun pr => pr.2) = files.map (fun f => hash f.bytes) ∧
    (files.map (fun f => hash f.bytes)).Nodup ∧
    (∀ x ∈ files.map (fun f => hash f.bytes), x ∉ seen ∧ x ∉ existing) := by
  induction files generalizing seen payload with
  | nil =>
    simp [clean_receipt_images_go] at h
    simp [← h]
  | cons f rest ih =>
    unfold clean_receipt_images_go at h
    split_ifs at h with h1 h2 h3
    cases hrec : clean_receipt_images_go hash existing rest
        (seen ++ [hash f.bytes]) with
    | ok payload' =>
      rw [hrec] at h
      simp at h
      obtain ⟨hmap, hnodup, hni⟩ := ih hrec
      push_neg at h3
      constructor
      · simp [← h, hmap]
      constructor
      · simp only [List.map_cons, List.nodup_cons]
        refine ⟨?_, hnodup⟩
        intro hmem
        exact ((hni _ hmem).1 (by simp))
      · intro x hx
        simp only [List.map_cons, List.mem_cons] at hx
        rcases hx with hx | hx
        · subst hx
          exact ⟨h3.1, h3.2⟩
        · have := (hni x hx)
          refine ⟨?_, this.2⟩
          intro hxs
          exact this.1 (by simp [hxs])
    | error e =>
      rw [hrec] at h
      simp at h

lemma clean_ok_spec {hash : List Nat → Nat} {existing : List Nat}
    {files : List UploadedFile} {payload : List (UploadedFile × Nat)}
    (h : clean_receipt_images hash existing files = Except.ok payload) :
    payload.map (fun pr => pr.2) = files.map (fun f => hash f.bytes) ∧
    (files.map (fun f => hash f.bytes)).Nodup ∧
    (∀ x ∈ files.map (fun f => hash f.bytes), x ∉ existing) := by
  unfold clean_receipt_images at h
  split_ifs at h
  obtain ⟨hmap, hnodup, hni⟩ := clean_go_ok_spec h
  exact ⟨hmap, hnodup, fun x hx => (hni x hx).2⟩

/-! ### Claim theorems -/

/-- C1: every successful staff status-change appends exactly one
ActivityLogEntry whose `from_status` is the status of the record immediately
before the call and whose `to_status` is the new status, and the new
status and the note (replacing `last_staff_note`) are persisted together
with the lock flag and counterparty in the same atomic update. -/
theorem C1_success_appends_one_entry (u : User) (form : StatusForm)
    (db db' : DB) (h : staff_update_db u form db = (db', none)) :
    ∃ entry,
      db'.logs = db.logs ++ [entry] ∧
      entry.action = LogAction.status_changed ∧
      entry.from_status = some db.payment.status ∧
      entry.to_status = some db'.payment.status ∧
      db'.payment.status = form.status ∧
      db'.payment.last_staff_note = strip form.note ∧
      entry.note = db'.payment.last_staff_note := by
  obtain ⟨hok, hpay, hlogs⟩ := staff_update_db_none_elim h
  refine ⟨(staff_update_success u db.payment form).2, hlogs,
    ?_, ?_, ?_, ?_, ?_, ?_⟩ <;>
    simp [staff_update_success_entry, hpay, staff_update_success_status,
          staff_update_success_note]

theorem C1_witness_concrete :
    staff_update_db
      ⟨1, true, false, false, some Role.finance⟩
      ⟨true, Status.final_approved, " ok ", none⟩
      ⟨⟨Status.commercial_review, false, "", none, some 9⟩, []⟩ =
      (⟨⟨Status.final_approved, true, "ok", none, some 9⟩,
        [⟨some 1, LogAction.status_changed, some Status.commercial_review,
          some Status.final_approved, "ok"⟩]⟩, none) ∧
    ∃ entry,
      (⟨⟨Status.final_approved, true, "ok", none, some 9⟩,
        [⟨some 1, LogAction.status_changed, some Status.commercial_review,
          some Status.final_approved, "ok"⟩]⟩ : DB).logs =
        (⟨⟨Status.commercial_review, false, "", none, some 9⟩, []⟩ : DB).logs
          ++ [entry] ∧
      entry.action = LogAction.status_changed ∧
      entry.from_status =
        some (⟨⟨Status.commercial_review, false, "", none, some 9⟩,
               []⟩ : DB).payment.status ∧
      entry.to_status =
        some (⟨⟨Status.final_approved, true, "ok", none, some 9⟩,
               [⟨some 1, LogAction.status_changed,
                 some Status.commercial_review,
                 some Status.final_approved, "ok"⟩]⟩ : DB).payment.status ∧
      (⟨⟨Status.final_approved, true, "ok", none, some 9⟩,
        [⟨some 1, LogAction.status_changed, some Status.commercial_review,
          some Status.final_approved, "ok"⟩]⟩ : DB).payment.status =
        (⟨true, Status.final_approved, " ok ", none⟩ : StatusForm).status ∧
      (⟨⟨Status.final_approved, true, "ok", none, some 9⟩,
        [⟨some 1, LogAction.status_changed, some Status.commercial_review,
          some Status.final_approved, "ok"⟩]⟩ : DB).payment.last_staff_note =
        strip (⟨true, Status.final_approved, " ok ", none⟩
                : StatusForm).note ∧
      entry.note =
        (⟨⟨Status.final_approved, true, "ok", none, some 9⟩,
          [⟨some 1, LogAction.status_changed, some Status.commercial_review,
            some Status.final_approved, "ok"⟩]⟩ : DB).payment.last_staff_note
    :=
  ⟨by decide,
   C1_success_appends_one_entry
     ⟨1, true, false, false, some Role.finance⟩
     ⟨true, Status.final_approved, " ok ", none⟩
     ⟨⟨Status.commercial_review, false, "", none, some 9⟩, []⟩
     ⟨⟨Status.final_approved, true, "ok", none, some 9⟩,
      [⟨some 1, LogAction.status_changed, some Status.commercial_review,
        some Status.final_approved, "ok"⟩]⟩
     (by decide)⟩

/-- C3: when the current status is `finance_review`, `approved` or
`final_approved`, a status-change attempt by a (necessarily non-override)
commercial-role caller is refused at the authorization gate — the stored
state is unchanged and no log entry is appended; and the commercial role
can act only while the record is `pending` or `returned_commercial`. -/
theorem C3_commercial_denied_after_finance (u : User) (form : StatusForm)
    (db : DB)
    (hrole : user_role u = Role.commercial)
    (hst : db.payment.status = Status.finance_review ∨
           db.payment.status = Status.approved ∨
           db.payment.status = Status.final_approved) :
    staff_update_db u form db = (db, some UpdateError.cannotAct) ∧
    ∀ p : Payment, can_staff_act_on_payment Role.commercial p false = true →
      p.status = Status.pending ∨ p.status = Status.returned_commercial := by
  constructor
  · have hsu : u.is_superuser = false := (user_role_commercial_elim hrole).2.1
    have h1 : is_staff_user u = true := user_role_commercial_is_staff_user hrole
    have h2 : can_staff_act_on_payment (user_role u) db.payment
        u.is_superuser = false := by
      rw [hrole, hsu]
      exact can_act_commercial_false_after_finance hst
    exact staff_update_db_of_error (staff_update_status_error_cannotAct h1 h2)
  · intro p hact
    exact can_act_commercial_elim hact rfl

theorem C3_witness_concrete :
    user_role ⟨2, true, false, false, some Role.commercial⟩ =
      Role.commercial ∧
    staff_update_db ⟨2, true, false, false, some Role.commercial⟩
      ⟨true, Status.commercial_review, "x", none⟩
      ⟨⟨Status.finance_review, false, "", none, some 9⟩, []⟩ =
      (⟨⟨Status.finance_review, false, "", none, some 9⟩, []⟩,
       some UpdateError.cannotAct) :=
  ⟨by decide,
   (C3_commercial_denied_after_finance
     ⟨2, true, false, false, some Role.commercial⟩
     ⟨true, Status.commercial_review, "x", none⟩
     ⟨⟨Status.finance_review, false, "", none, some 9⟩, []⟩
     (by decide) (Or.inl (by decide))).1⟩

/-- C5: every status-change request that fails any validation step leaves
the stored payment record and its log untouched, and the five failure
steps surface pairwise-distinct user-facing reasons. -/
theorem C5_failure_no_mutation_distinct_reasons (u : User)
    (form : StatusForm) (db db' : DB) (e : UpdateError)
    (h : staff_update_db u form db = (db', some e)) :
    db' = db ∧
    List.Pairwise (fun a b => update_error_message a ≠ update_error_message b)
      [UpdateError.notStaff, UpdateError.cannotAct, UpdateError.invalidForm,
       UpdateError.roleNotAllowed, UpdateError.noteRequired] :=
  ⟨staff_update_db_some_unchanged h, by decide⟩

theorem C5_witness_concrete :
    staff_update_db ⟨4, true, false, false, none⟩
      ⟨true, Status.approved, "", none⟩
      ⟨⟨Status.pending, false, "", none, some 4⟩, []⟩ =
      (⟨⟨Status.pending, false, "", none, some 4⟩, []⟩,
       some UpdateError.notStaff) ∧
    (⟨⟨Status.pending, false, "", none, some 4⟩, []⟩ : DB) =
      ⟨⟨Status.pending, false, "", none, some 4⟩, []⟩ :=
  ⟨by decide,
   (C5_failure_no_mutation_distinct_reasons ⟨4, true, false, false, none⟩
     ⟨true, Status.approved, "", none⟩
     ⟨⟨Status.pending, false, "", none, some 4⟩, []⟩
     ⟨⟨Status.pending, false, "", none, some 4⟩, []⟩
     UpdateError.notStaff (by decide)).1⟩

/-- C6: a status-change request targeting `rejected` or `incomplete`
whose note strips to the empty string always fails (no mutation, no log
entry) whatever the acting role, and the mandatory-note check passes for
every note that is non-empty after stripping. -/
theorem C6_mandatory_note (u : User) (form : StatusForm) (db : DB)
    (hst : form.status = Status.rejected ∨ form.status = Status.incomplete)
    (hnote : strip form.note = "") :
    (∃ e, staff_update_db u form db = (db, some e)) ∧
    ∀ t n, strip n ≠ "" → mandatory_note_missing t (strip n) = false := by
  constructor
  · cases hres : staff_update_status u db.payment form with
    | error e => exact ⟨e, staff_update_db_of_error hres⟩
    | ok pe =>
      exfalso
      obtain ⟨_, _, _, _, h5, _⟩ := staff_update_status_ok_elim hres
      have : mandatory_note_missing form.status (strip form.note) = true := by
        unfold mandatory_note_missing
        rw [hnote]
        rcases hst with h | h <;> simp [h]
      rw [this] at h5
      cases h5
  · intro t n hn
    unfold mandatory_note_missing
    simp [hn]

theorem C6_witness_concrete :
    strip "  " = "" ∧
    ∃ e, staff_update_db ⟨1, true, true, true, none⟩
      ⟨true, Status.rejected, "  ", none⟩
      ⟨⟨Status.approved, false, "", none, some 9⟩, []⟩ =
      (⟨⟨Status.approved, false, "", none, some 9⟩, []⟩, some e) :=
  ⟨by decide,
   (C6_mandatory_note ⟨1, true, true, true, none⟩
     ⟨true, Status.rejected, "  ", none⟩
     ⟨⟨Status.approved, false, "", none, some 9⟩, []⟩
     (Or.inl (by decide)) (by decide)).1⟩

/-- C2 counterexample: the claim that the override (superuser) transition
always succeeds is false — on a locked record the superuser transition to
`rejected` with an empty note fails the mandatory-note validation step. -/
theorem C2_counterexample_override_note :
    staff_update_status ⟨1, true, true, true, none⟩
      ⟨Status.approved, true, "", none, some 5⟩
      ⟨true, Status.rejected, "", none⟩ =
      Except.error UpdateError.noteRequired := by decide

/-- C2 (amended): a finance-role transition to `final_approved`,
`rejected` or `incomplete` sets `locked_by_finance`; while the record is
locked every non-override call fails; the transition of an authenticated
override caller is never refused by the lock or the role allow-list — it
succeeds whenever the form is valid and the mandatory-note rule is met —
and every successful override transition clears the lock; and a transition
that succeeds on a locked record is necessarily by the override role and
clears the lock (the only way the lock is cleared among staff
transitions). -/
theorem C2_lock_lifecycle_amended (u : User) (p : Payment)
    (form : StatusForm) :
    (∀ pe, user_role u = Role.finance →
      staff_update_status u p form = Except.ok pe →
      (form.status = Status.final_approved ∨ form.status = Status.rejected ∨
       form.status = Status.incomplete) →
      pe.1.locked_by_finance = true) ∧
    (p.locked_by_finance = true → u.is_superuser = false →
      ∃ e, staff_update_status u p form = Except.error e) ∧
    (u.is_authenticated = true → u.is_superuser = true → form.valid = true →
      mandatory_note_missing form.status (strip form.note) = false →
      ∃ pe, staff_update_status u p form = Except.ok pe ∧
        pe.1.locked_by_finance = false) ∧
    (∀ pe, staff_update_status u p form = Except.ok pe →
      p.locked_by_finance = true →
      u.is_superuser = true ∧ pe.1.locked_by_finance = false) := by
  refine ⟨?_, ?_, ?_, ?_⟩
  · intro pe hrole hok htgt
    obtain ⟨_, _, _, _, _, hpe⟩ := staff_update_status_ok_elim hok
    subst hpe
    have hsu : u.is_superuser = false := (user_role_finance_elim hrole).2.1
    rcases htgt with h | h | h <;>
      simp [staff_update_success_locked, hsu, hrole, h]
  · intro hlock hsu
    cases hstaff : is_staff_user u with
    | false => exact ⟨_, staff_update_status_error_notStaff hstaff⟩
    | true =>
      refine ⟨_, staff_update_status_error_cannotAct hstaff ?_⟩
      rw [hsu]
      exact can_act_locked_not_admin hlock
  · intro hauth hsu hv hnote
    refine ⟨staff_update_success u p form,
      staff_update_status_ok_intro (superuser_auth_is_staff_user hauth hsu)
        ?_ hv ?_ hnote, ?_⟩
    · rw [hsu]
      exact can_act_superuser _ _
    · intro hcontra
      rw [hsu] at hcontra
      cases hcontra
    · rw [staff_update_success_locked, hsu]
      simp
  · intro pe hok hlock
    obtain ⟨_, h2, _, _, _, hpe⟩ := staff_update_status_ok_elim hok
    subst hpe
    cases hsu : u.is_superuser with
    | false =>
      exfalso
      rw [hsu, can_act_locked_not_admin hlock] at h2
      cases h2
    | true =>
      refine ⟨rfl, ?_⟩
      rw [staff_update_success_locked, hsu]
      simp

theorem C2_witness_concrete :
    ((⟨Status.approved, true, "x", none, some 9⟩ : Payment).locked_by_finance
      = true ∧
     ∃ e, staff_update_status ⟨2, true, false, false, some Role.commercial⟩
       ⟨Status.approved, true, "x", none, some 9⟩
       ⟨true, Status.commercial_review, "x", none⟩ = Except.error e) ∧
    (∃ pe, staff_update_status ⟨1, true, true, true, none⟩
       ⟨Status.approved, true, "x", none, some 9⟩
       ⟨true, Status.finance_review, "", none⟩ = Except.ok pe ∧
       pe.1.locked_by_finance = false) :=
  ⟨⟨by decide,
    (C2_lock_lifecycle_amended ⟨2, true, false, false, some Role.commercial⟩
      ⟨Status.approved, true, "x", none, some 9⟩
      ⟨true, Status.commercial_review, "x", none⟩).2.1
      (by decide) (by decide)⟩,
   (C2_lock_lifecycle_amended ⟨1, true, true, true, none⟩
     ⟨Status.approved, true, "x", none, some 9⟩
     ⟨true, Status.finance_review, "", none⟩).2.2.1
     (by decide) (by decide) (by decide) (by decide)⟩

/-- C4: customer create always persists the record with status `pending`
whatever status was submitted; edit succeeds (given a valid form) exactly
when the caller is a non-staff user that owns the record and the current
status is `incomplete`; and every successful edit sets status `pending`
and clears `locked_by_finance`. -/
theorem C4_customer_create_edit (u : User) (p : Payment)
    (form : PaymentForm) :
    (∀ pe, create_payment u form = Except.ok pe →
      pe.1.status = Status.pending) ∧
    (form.valid = true →
      ((∃ pe, edit_payment u p form = Except.ok pe) ↔
        (is_staff_user u = false ∧ p.user_id = some u.id ∧
         p.status = Status.incomplete))) ∧
    (∀ pe, edit_payment u p form = Except.ok pe →
      pe.1.status = Status.pending ∧ pe.1.locked_by_finance = false) := by
  refine ⟨fun pe h => create_payment_ok_status h, ?_,
    fun pe h => ⟨(edit_payment_ok_elim h).2.2.2.2.1,
                 (edit_payment_ok_elim h).2.2.2.2.2⟩⟩
  intro hv
  constructor
  · rintro ⟨pe, h⟩
    obtain ⟨a, b, c, _, _, _⟩ := edit_payment_ok_elim h
    exact ⟨a, b, c⟩
  · rintro ⟨a, b, c⟩
    exact edit_payment_ok_intro a b c hv

theorem C4_witness_concrete :
    (∀ pe, create_payment ⟨2, true, false, false, none⟩
        ⟨true, Status.final_approved⟩ = Except.ok pe →
      pe.1.status = Status.pending) ∧
    ((⟨true, Status.final_approved⟩ : PaymentForm).valid = true ∧
     ∃ pe, edit_payment ⟨2, true, false, false, none⟩
       ⟨Status.incomplete, true, "fix it", none, some 2⟩
       ⟨true, Status.final_approved⟩ = Except.ok pe) :=
  ⟨(C4_customer_create_edit ⟨2, true, false, false, none⟩
      ⟨Status.incomplete, true, "fix it", none, some 2⟩
      ⟨true, Status.final_approved⟩).1,
   ⟨by decide,
    ((C4_customer_create_edit ⟨2, true, false, false, none⟩
       ⟨Status.incomplete, true, "fix it", none, some 2⟩
       ⟨true, Status.final_approved⟩).2.1 (by decide)).mpr
      ⟨by decide, by decide, by decide⟩⟩⟩

/-- C7: if the digest of any file in an upload batch collides with another
file of the same batch or with a digest already stored against the same
payment, validation fails and zero receipts from the batch are persisted;
and a successful batch keeps the stored digests of the payment
duplicate-free (uniqueness of the pair of payment and file_hash). -/
theorem C7_receipt_dedup (hash : List Nat → Nat) (existing : List Nat)
    (files : List UploadedFile) :
    (¬ ((files.map (fun f => hash f.bytes)).Nodup ∧
        ∀ x ∈ files.map (fun f => hash f.bytes), x ∉ existing) →
      ∃ e, clean_receipt_images hash existing files = Except.error e ∧
        save_receipts_result hash existing files = (existing, some e)) ∧
    (∀ store', save_receipts_result hash existing files = (store', none) →
      existing.Nodup → store'.Nodup) := by
  constructor
  · intro hdup
    cases hres : clean_receipt_images hash existing files with
    | ok payload =>
      exact absurd ⟨(clean_ok_spec hres).2.1, (clean_ok_spec hres).2.2⟩ hdup
    | error e =>
      refine ⟨e, rfl, ?_⟩
      simp [save_receipts_result, hres]
  · intro store' hsave hex
    unfold save_receipts_result at hsave
    cases hres : clean_receipt_images hash existing files with
    | ok payload =>
      rw [hres] at hsave
      simp at hsave
      obtain ⟨hmap, hnodup, hni⟩ := clean_ok_spec hres
      rw [← hsave, List.nodup_append]
      refine ⟨hex, by rw [hmap]; exact hnodup, ?_⟩
      intro a ha hamem
      rw [hmap] at hamem
      exact hni a hamem ha
    | error e =>
      rw [hres] at hsave
      simp at hsave

theorem C7_witness_concrete :
    (¬ ((([⟨".jpg", 3, [1, 2, 3]⟩, ⟨".png", 3, [1, 2, 3]⟩]
            : List UploadedFile).map
          (fun f => f.bytes.foldr (fun a b => a + b) 0)).Nodup ∧
        ∀ x ∈ ([⟨".jpg", 3, [1, 2, 3]⟩, ⟨".png", 3, [1, 2, 3]⟩]
            : List UploadedFile).map
          (fun f => f.bytes.foldr (fun a b => a + b) 0), x ∉ [(9 : Nat)]) ∧
     ∃ e, clean_receipt_images (fun b => b.foldr (fun a b => a + b) 0)
         [9] [⟨".jpg", 3, [1, 2, 3]⟩, ⟨".png", 3, [1, 2, 3]⟩] =
         Except.error e ∧
       save_receipts_result (fun b => b.foldr (fun a b => a + b) 0)
         [9] [⟨".jpg", 3, [1, 2, 3]⟩, ⟨".png", 3, [1, 2, 3]⟩] =
         ([9], some e)) ∧
    (save_receipts_result (fun b => b.foldr (fun a b => a + b) 0)
       [9] [⟨".jpg", 3, [1, 2, 4]⟩] = ([9, 7], none) ∧
     ([(9 : Nat)]).Nodup ∧ ([9, 7] : List Nat).Nodup) :=
  ⟨⟨by decide,
    (C7_receipt_dedup (fun b => b.foldr (fun a b => a + b) 0) [9]
      [⟨".jpg", 3, [1, 2, 3]⟩, ⟨".png", 3, [1, 2, 3]⟩]).1 (by decide)⟩,
   ⟨by decide, by decide,
    (C7_receipt_dedup (fun b => b.foldr (fun a b => a + b) 0) [9]
      [⟨".jpg", 3, [1, 2, 4]⟩]).2 [9, 7] (by decide) (by decide)⟩⟩

/-- C8 counterexample: classification does not give the staff/privileged
account flag precedence over the stored profile role — a non-superuser
with `is_staff` set and a profile whose role is `customer` is classified
`customer` by the code, while the claimed precedence yields `staff`. -/
theorem C8_counterexample_precedence :
    user_role ⟨1, true, false, true, some Role.customer⟩ = Role.customer ∧
    user_role_claimed_precedence ⟨1, true, false, true, some Role.customer⟩ =
      Role.staff ∧
    user_role ⟨1, true, false, true, some Role.customer⟩ ≠
      user_role_claimed_precedence
        ⟨1, true, false, true, some Role.customer⟩ := by decide

/-- C8 (amended): role classification checks the override (superuser)
flag first; otherwise, when a stored profile exists, the stored profile
role attribute decides regardless of the staff flag; the staff/privileged flag
is consulted only when no profile exists (staff if set, else customer);
the classification is a pure deterministic function of these stored
attributes. -/
theorem C8_role_precedence_amended (u : User) :
    user_role u = user_role_amended_precedence u ∧
    (u.is_authenticated = true → u.is_superuser = true →
      user_role u = Role.staff) ∧
    (∀ r, u.is_authenticated = true → u.is_superuser = false →
      u.profile = some r → user_role u = r) ∧
    (u.is_authenticated = true → u.is_superuser = false →
      u.profile = none →
      user_role u =
        if u.is_staff = true then Role.staff else Role.customer) := by
  rcases u with ⟨i, auth, su, st, prof⟩
  refine ⟨rfl, ?_, ?_, ?_⟩
  · intro h1 h2
    simp_all [user_role]
  · intro r h1 h2 h3
    simp_all [user_role]
  · intro h1 h2 h3
    simp_all [user_role]

theorem C8_witness_concrete :
    ((⟨1, true, false, true, some Role.customer⟩ : User).is_authenticated
      = true ∧
     (⟨1, true, false, true, some Role.customer⟩ : User).is_superuser
      = false ∧
     (⟨1, true, false, true, some Role.customer⟩ : User).profile
      = some Role.customer) ∧
    user_role ⟨1, true, false, true, some Role.customer⟩ = Role.customer :=
  ⟨⟨rfl, rfl, rfl⟩,
   (C8_role_precedence_amended
     ⟨1, true, false, true, some Role.customer⟩).2.2.1
     Role.customer rfl rfl rfl⟩

/-- C9: deleting a Counterparty always fails — the data layer raises
unconditionally and the admin grants delete permission to no caller — so
the stored counterparty list is unchanged for every caller, override
included, even when the counterparty is unreferenced. -/
theorem C9_counterparty_delete_always_fails (u : User)
    (store : List Counterparty) (c : Counterparty)
    (obj : Option Counterparty) :
    delete_counterparty u store c =
      (store,
       some "Counterparty records are permanent and cannot be deleted.") ∧
    counterparty_admin_has_delete_permission u obj = false :=
  ⟨rfl, rfl⟩

/-- C10: a caller resolved to the generic `staff` role — which includes
any authenticated user with the privileged account flag and no profile —
has the full eight-status allow-list; on an unlocked record its
status-change request succeeds for any valid form meeting the
mandatory-note rule; and such a transition never sets
`locked_by_finance`, even towards `final_approved`, `rejected` or
`incomplete`. -/
theorem C10_generic_staff_unrestricted (u : User) (p : Payment)
    (form : StatusForm)
    (hrole : user_role u = Role.staff)
    (hlock : p.locked_by_finance = false)
    (hv : form.valid = true)
    (hnote : mandatory_note_missing form.status (strip form.note) = false) :
    staff_status_choices_for_role Role.staff = STATUS_CHOICES ∧
    (∀ s : Status, s ∈ staff_status_choices_for_role Role.staff) ∧
    (∃ pe, staff_update_status u p form = Except.ok pe ∧
      pe.1.locked_by_finance = false) ∧
    (∀ v : User, v.is_authenticated = true → v.is_staff = true →
      v.profile = none → user_role v = Role.staff) := by
  refine ⟨by decide, ?_, ?_, ?_⟩
  · intro s
    cases s <;> decide
  · refine ⟨staff_update_success u p form,
      staff_update_status_ok_intro (user_role_staff_is_staff_user hrole)
        ?_ hv ?_ hnote, ?_⟩
    · refine can_act_unlocked_noncommercial u.is_superuser ?_ hlock
      rw [hrole]
      decide
    · intro _
      rw [hrole]
      cases form.status <;> decide
    · rw [staff_update_success_locked]
      cases hsu : u.is_superuser with
      | true => simp
      | false => simp [hrole, hlock]
  · intro v h1 h2 h3
    rcases v with ⟨i, auth, su, st, prof⟩
    simp_all [user_role]

theorem C10_witness_concrete :
    (user_role ⟨3, true, false, true, none⟩ = Role.staff ∧
     (⟨Status.pending, false, "", none, some 9⟩ : Payment).locked_by_finance
       = false ∧
     mandatory_note_missing Status.final_approved (strip "") = false) ∧
    ∃ pe, staff_update_status ⟨3, true, false, true, none⟩
        ⟨Status.pending, false, "", none, some 9⟩
        ⟨true, Status.final_approved, "", none⟩ = Except.ok pe ∧
      pe.1.locked_by_finance = false :=
  ⟨⟨by decide, rfl, by decide⟩,
   (C10_generic_staff_unrestricted ⟨3, true, false, true, none⟩
     ⟨Status.pending, false, "", none, some 9⟩
     ⟨true, Status.final_approved, "", none⟩
     (by decide) rfl rfl (by decide)).2.2.1⟩

end PaymentApp
